import Mathlib

/-!
Verification of the filename-heuristic filtering and per-dataset MS2
selection pipeline of `ms_filter.py`.

Python strings are modelled as `List Char`; a compiled case-insensitive
regex term is modelled by `Term` together with `matchTerm`, which realises
`re.search` for the three pattern shapes the term tables actually use:
plain substrings, `\b...\b` word-bounded substrings, and `...\b` substrings
bounded on the right.  `re.IGNORECASE` is realised by matching the
(lowercase) pattern against the lowercased text, which coincides with
Python's behaviour on ASCII input.
-/

namespace MsFilter

/-- Python `\w` (ASCII range): letters, digits and underscore. -/
def isWordChar (c : Char) : Bool := c.isAlphanum || c == '_'

/-- Lowercase a string, modelling `str.lower()` / `re.IGNORECASE` on ASCII. -/
def norm (s : List Char) : List Char := s.map Char.toLower

/-- `str.lower()` on a packed string. -/
def pyLower (s : String) : String := ⟨norm s.data⟩

/-- Does `pat` occur in `s` starting at index `i`? -/
def occursAt (s pat : List Char) (i : Nat) : Bool := pat.isPrefixOf (s.drop i)

/-- Is the character at index `i` a word character (out of range counts as not)? -/
def wordnessAt (s : List Char) (i : Nat) : Bool :=
  match s.get? i with
  | some c => isWordChar c
  | none => false

/-- Regex `\b` at text position `i`: the word-character status changes
between positions `i-1` and `i` (positions outside the text count as
non-word). -/
def boundaryAt (s : List Char) (i : Nat) : Bool :=
  (if i = 0 then false else wordnessAt s (i - 1)) != wordnessAt s i

/-- The three shapes of compiled pattern occurring in the term tables of
`ms_filter.py`: a plain substring, a `\b...\b`-delimited word, and a
pattern ending in `\b`. -/
inductive Term where
  | sub (pat : List Char)
  | word (pat : List Char)
  | bword (pat : List Char)
deriving DecidableEq, Repr

/-- Does the term match `s` at position `i`? -/
def matchTermAt (s : List Char) (t : Term) (i : Nat) : Bool :=
  match t with
  | .sub p => occursAt s p i
  | .word p => occursAt s p i && boundaryAt s i && boundaryAt s (i + p.length)
  | .bword p => occursAt s p i && boundaryAt s (i + p.length)

/-- `re.search`: the term matches somewhere in `s`. -/
def matchTerm (s : List Char) (t : Term) : Bool :=
  (List.range (s.length + 1)).any (matchTermAt s t)

/-- `any(rgx.search(text) for rgx in terms)`. -/
def matchesAny (terms : List Term) (s : List Char) : Bool :=
  terms.any (matchTerm s)

/-! ### The term tables (`RAW_TERMS` … `NON_SAMPLE_QC_TERMS`), compiled.
`hydroly[sz](?:ate|ed)` is expanded into its four literal matches. -/

def COMPILED_RAW : List Term :=
  [.word "raw".data, .sub "unprocessed".data, .sub "fresh".data, .sub "uncooked".data,
   .sub "natural".data, .sub "crude".data, .sub "whole".data]

def COMPILED_CONTROL : List Term :=
  [.sub "control".data, .sub "ctrl".data, .sub "cntrl".data, .sub "ctl".data,
   .sub "uninfected".data, .sub "untreated".data, .sub "baseline".data,
   .sub "wild_type".data, .sub "wt".data, .sub "wildtype".data, .sub "parental".data,
   .sub "initial".data, .sub "input".data,
   .bword "t0".data, .sub "time0".data, .sub "day0".data,
   .bword "0h".data, .bword "0hr".data, .sub "zerohr".data, .sub "0_hr".data,
   .sub "pre_treatment".data, .sub "before_processing".data,
   .sub "pre-processing".data, .sub "before-processing".data,
   .sub "mock".data]

def COMPILED_GENERIC_EDIBLE_PART : List Term :=
  [.sub "grain".data, .sub "kernel".data, .sub "seed".data, .sub "berry".data,
   .sub "endosperm".data, .sub "embryo".data, .sub "germ".data, .sub "cereal".data,
   .sub "fruit".data, .sub "pulp".data, .sub "flesh".data, .sub "peel".data,
   .sub "skin".data,
   .sub "vegetable".data, .sub "leafy_green".data, .sub "root_veg".data,
   .sub "tuber_veg".data,
   .sub "edible_part".data, .sub "sample".data]

def COMPILED_PROCESSED : List Term :=
  [.sub "beer".data, .sub "ale".data, .sub "lager".data, .sub "brew".data,
   .sub "wort".data, .sub "malt".data, .sub "ferment".data, .sub "sourdough".data,
   .sub "bread".data, .sub "pasta".data, .sub "noodle".data, .sub "cake".data,
   .sub "biscuit".data, .sub "cookie".data, .sub "pastry".data,
   .sub "syrup".data, .sub "starch".data, .sub "ethanol".data, .sub "biofuel".data,
   .sub "distillate".data, .sub "mash".data, .sub "slurry".data,
   .sub "cook".data, .sub "bake".data, .sub "baked".data, .sub "fried".data,
   .sub "toast".data, .sub "roast".data, .sub "steam".data, .sub "boil".data,
   .sub "autoclave".data,
   .sub "extract".data, .sub "digest".data,
   .sub "hydrolysate".data, .sub "hydrolysed".data,
   .sub "hydrolyzate".data, .sub "hydrolyzed".data,
   .sub "supernatant".data, .sub "pellet".data,
   .sub "flour".data, .sub "meal".data, .sub "grit".data, .sub "semolina".data,
   .sub "paste".data, .sub "puree".data, .sub "juice".data, .sub "smoothie".data,
   .sub "extrude".data, .sub "puff".data, .sub "flake".data, .sub "instant".data,
   .sub "processed".data]

def COMPILED_NON_EDIBLE : List Term :=
  [.sub "leaf".data, .sub "leaves".data, .sub "foliage".data, .sub "stem".data,
   .sub "stalk".data, .sub "shoot".data, .sub "stover".data, .sub "culm".data,
   .sub "root".data, .sub "rhizome".data,
   .sub "seedling".data, .sub "sprout".data,
   .sub "husk".data, .sub "hull".data, .sub "bran".data, .sub "chaff".data,
   .sub "glume".data, .sub "lemma".data, .sub "palea".data,
   .sub "tassel".data, .sub "silk".data, .sub "anther".data, .sub "pollen".data,
   .sub "flower".data,
   .sub "callus".data, .sub "cell_culture".data, .sub "suspension_culture".data,
   .sub "plant_tissue".data]

def COMPILED_TREATMENT : List Term :=
  [.sub "infect".data, .sub "pathogen".data, .sub "disease".data, .sub "lesion".data,
   .sub "symptom".data,
   .sub "fungi".data, .sub "bacteria".data, .sub "virus".data, .sub "oomycete".data,
   .sub "nematode".data,
   .sub "treat".data, .sub "treatment".data, .sub "stress".data, .sub "elicitor".data,
   .sub "induc".data,
   .sub "pesticide".data, .sub "herbicide".data, .sub "fungicide".data,
   .sub "insecticide".data, .sub "fertilizer".data,
   .sub "mutant".data, .sub "transgenic".data, .sub "gmo".data, .sub "knockout".data,
   .sub "overexpress".data]

def COMPILED_QC : List Term :=
  [.sub "qc".data, .sub "quality_control".data, .sub "qa".data,
   .sub "system_suitability".data, .sub "sst".data,
   .sub "blank".data, .sub "solvent_blank".data, .sub "method_blank".data,
   .sub "instrument_blank".data, .sub "reagent_blank".data,
   .sub "wash".data, .sub "equilibration".data, .sub "conditioning".data,
   .sub "gradient_test".data,
   .sub "standard".data, .sub "std".data, .sub "ref_mat".data,
   .sub "reference_material".data, .sub "calib".data,
   .sub "tune".data, .sub "mass_cal".data, .sub "msms_check".data,
   .sub "tryptic_digest_std".data]

/-! ### The filename heuristic (`check_filename_relevance`) -/

/-- `check_filename_relevance(filename_lower, derived_food_name_regex_list,
assessment_type)`: decides whether a file is analysed, returning the keep
flag and the reason tag.  All regex matching is case-insensitive, hence
performed on the lowercased text. -/
def check_filename_relevance (filename_lower : List Char)
    (derived_food_name_regex_list : List Term) (assessment_type : String) :
    Bool × String :=
  let s := norm filename_lower
  if matchesAny COMPILED_QC s then
    (false, "qc_or_blank_file")
  else if assessment_type = "ACCEPTED" then
    (true, "accepted_study_non_qc_file")
  else if assessment_type = "MAYBE" then
    let food_match := matchesAny derived_food_name_regex_list s
    if matchesAny COMPILED_PROCESSED s &&
        !(matchesAny COMPILED_CONTROL s || matchesAny COMPILED_RAW s) then
      (false, "maybe_processed_product_no_raw_control_signal")
    else if matchesAny COMPILED_NON_EDIBLE s &&
        !(matchesAny COMPILED_GENERIC_EDIBLE_PART s || matchesAny COMPILED_CONTROL s) then
      (false, "maybe_non_edible_part_no_edible_control_signal")
    else
      let has_treatment_term := matchesAny COMPILED_TREATMENT s
      let has_control_term := matchesAny COMPILED_CONTROL s
      let has_raw_term := matchesAny COMPILED_RAW s
      let has_generic_edible_term := matchesAny COMPILED_GENERIC_EDIBLE_PART s
      if food_match && (has_raw_term || has_control_term || has_generic_edible_term) then
        (true, "maybe_food_match_with_raw_control_or_edible_term")
      else if has_raw_term || has_control_term then
        if has_treatment_term && !(has_raw_term || has_control_term) then
          (false, "maybe_treatment_file_no_food_match_lacks_explicit_control_raw")
        else
          (true, "maybe_no_food_match_but_strong_raw_control_signal")
      else if has_treatment_term &&
          !(has_control_term || has_raw_term || has_generic_edible_term || food_match) then
        (false, "maybe_treatment_file_lacks_any_positive_signal")
      else
        (false, "maybe_lacks_sufficient_positive_signal")
  else
    (false, "unknown_assessment_type_or_unmatched_condition_in_heuristic")

/-! ### The food-key regex generator (`get_derived_food_name_regex_list`) -/

/-- `re.escape` (Python ≥ 3.7): a backslash is inserted before every
character with a special regex meaning; all other characters pass through. -/
def reSpecial (c : Char) : Bool :=
  c == '(' || c == ')' || c == '[' || c == ']' || c == '?' || c == '*' ||
  c == '+' || c == '-' || c == '|' || c == '^' || c == '$' || c == '\\' ||
  c == '.' || c == '&' || c == '~' || c == '#' || c == ' ' || c == '\t' ||
  c == '\n' || c == '\r' || c.toNat == 123 || c.toNat == 125 ||
  c.toNat == 11 || c.toNat == 12

/-- `re.escape` on a string. -/
def escapeRe (tok : List Char) : List Char :=
  (tok.map (fun c => if reSpecial c then ['\\', c] else [c])).flatten

/-- Inverse direction used when compiling escaped literals back into terms:
drop the backslash `re.escape` put before a special character. -/
def unescapeRe : List Char → List Char
  | [] => []
  | '\\' :: c :: rest => c :: unescapeRe rest
  | c :: rest => c :: unescapeRe rest

/-- Python `str.split(sep)` for a one-character separator: consecutive
separators and boundary separators produce empty fields. -/
def splitOnChar (sep : Char) : List Char → List (List Char)
  | [] => [[]]
  | c :: cs =>
    match splitOnChar sep cs with
    | [] => if c == sep then [[], []] else [[c]]
    | r :: rs => if c == sep then [] :: r :: rs else (c :: r) :: rs

/-- Lexicographic comparison of strings by code point, Python's `<` on `str`
(used to model `sorted` on a list of pattern strings). -/
def lexLe : List Char → List Char → Bool
  | [], _ => true
  | _ :: _, [] => false
  | a :: as_, b :: bs =>
    if a.toNat < b.toNat then true
    else if b.toNat < a.toNat then false
    else lexLe as_ bs

/-- Insert `x` into `l` before the first element it compares `le` to:
one step of a stable insertion sort. -/
def insortBy (le : α → α → Bool) (x : α) : List α → List α
  | [] => [x]
  | y :: ys => if le x y then x :: y :: ys else y :: insortBy le x ys

/-- Stable insertion sort: the model of Python's (stable) `sorted`. -/
def sortedBy (le : α → α → Bool) : List α → List α
  | [] => []
  | x :: xs => insortBy le x (sortedBy le xs)

/-- Wrap an escaped literal in `\b … \b`, the shape of every generated
food-name pattern. -/
def mkFoodPattern (escaped : List Char) : List Char :=
  '\\' :: 'b' :: escaped ++ ['\\', 'b']

/-- `get_derived_food_name_regex_list`, modelled at the level of the regex
pattern strings it builds (compilation into matchers is `compileFoodPattern`
below): one word-bounded pattern per underscore token longer than two
characters, plus one for the whole key; de-duplicated and sorted. -/
def get_derived_food_name_regex_list (food_item_key_str : List Char) :
    List (List Char) :=
  if food_item_key_str = [] then []
  else
    let parts := ((splitOnChar '_' food_item_key_str).filter
      (fun part => 2 < part.length)).map escapeRe
    let full_key_escaped := escapeRe food_item_key_str
    let regex_strings := parts.map mkFoodPattern
    let regex_strings :=
      if full_key_escaped ∈ regex_strings then regex_strings
      else regex_strings ++ [mkFoodPattern full_key_escaped]
    sortedBy lexLe regex_strings.dedup

/-- `re.compile(rs, re.IGNORECASE)` for a generated pattern
`\b<escaped literal>\b`: a word-bounded, case-insensitive match of the
literal. -/
def compileFoodPattern (rs : List Char) : Term :=
  .word (norm (unescapeRe ((rs.drop 2).take (rs.length - 4))))

/-! ### Path helpers and the remote file lister
(`parse_ftp_path`, `list_mass_spec_files_recursively`) -/

/-- Global flags and caps of `ms_filter.py`. -/
def MAX_FILES_FOR_MS2_COUNTING : Nat := 10

def ENABLE_MSCONVERT_PROCESSING : Bool := false

def SUPPORTED_EXTENSIONS_LOWER : List (List Char) :=
  [".mzxml".data, ".mgf".data, ".mzml".data, ".cdf".data]

def MSCONVERT_SUPPORTED_RAW_EXTENSIONS : List (List Char) :=
  [".raw".data, ".wiff".data, ".d".data]

def TEXT_BASED_EXTENSIONS : List (List Char) :=
  [".mzxml".data, ".mgf".data, ".mzml".data, ".cdf".data]

/-- `str.strip()`: drop leading and trailing whitespace. -/
def stripWs (s : List Char) : List Char :=
  ((s.dropWhile Char.isWhitespace).reverse.dropWhile Char.isWhitespace).reverse

/-- `str.endswith(suffix)` for a one-character suffix. -/
def endsWithChar (s : List Char) (c : Char) : Bool := s.getLast? == some c

/-- `os.path.basename` on a POSIX path: the part after the last `/`. -/
def basename (p : List Char) : List Char :=
  (p.reverse.takeWhile (· ≠ '/')).reverse

/-- The extension part of `os.path.splitext(name)` for a path with no
directory component: the suffix from the last dot, where the leading dots of
the name never start an extension (`".bashrc"` has none). -/
def splitextExt (name : List Char) : List Char :=
  let lead := (name.takeWhile (· == '.')).length
  match ((List.range name.length).filter
      (fun i => lead ≤ i && name.getD i ' ' == '.')).getLast? with
  | some i => name.drop i
  | none => []

/-- `parse_ftp_path` (`urlparse(link)` restricted to the `scheme://netloc/path`
links the pipeline passes in; params/query splitting is not used by ftp
links): the host and the path. -/
def parse_ftp_path (ftp_link : List Char) : List Char × List Char :=
  if "ftp://".data.isPrefixOf ftp_link then
    let rest := ftp_link.drop 6
    (rest.takeWhile (· ≠ '/'), rest.dropWhile (· ≠ '/'))
  else ([], ftp_link)

/-- One line of `lftp find` output accepted as a mass-spec file: the
descriptor built from it. -/
structure RemoteFileInfo where
  ftp_full_path : List Char
  filename : List Char
  file_ext_lower : List Char
deriving DecidableEq, Repr

/-- `list_mass_spec_files_recursively(server, base_ftp_path)`.  The external
`lftp find` call is an oracle `ftpFind` giving the output lines for a server
and (slash-terminated) base path; a failed or timed-out listing is the
oracle answering with no lines.  Each non-empty line that does not name a
directory and whose extension (lowercased) is supported becomes a
`RemoteFileInfo`. -/
def list_mass_spec_files_recursively
    (ftpFind : List Char → List Char → List (List Char))
    (server base_ftp_path : List Char) : List RemoteFileInfo :=
  let base := if endsWithChar base_ftp_path '/' then base_ftp_path
              else base_ftp_path ++ ['/']
  (ftpFind server base).filterMap (fun line =>
    let full_ftp_path := stripWs line
    if full_ftp_path = [] || endsWithChar full_ftp_path '/' then none
    else
      let filename := basename full_ftp_path
      let file_ext := splitextExt filename
      if norm file_ext ∈ SUPPORTED_EXTENSIONS_LOWER then
        some ⟨full_ftp_path, filename, norm file_ext⟩
      else none)

/-! ### The per-dataset orchestrator (`process_single_dataset`) -/

/-- A candidate/selected file as built inside `process_single_dataset`:
a `RemoteFileInfo` plus the heuristic reason and the measured count. -/
structure SelectedFile where
  ftp_file_path : List Char
  filename : List Char
  file_ext_lower : List Char
  heuristic_match_reason : String
  ms2_spectra_in_file : Nat
deriving DecidableEq, Repr

/-- One dataset record (`dataset_info_item`): the fields the orchestrator
reads or writes, plus `extra` standing for every other key of the JSON
object, which the orchestrator never touches. -/
structure DatasetRecord where
  study_id : Option String
  llm_assessment : Option String
  ftp_link : Option (List Char)
  selected_files_for_ms2_analysis : List SelectedFile
  total_ms2_spectra_from_selected_files : Nat
  unsupported_files_skipped_count : Nat
  ms2_count_source_type : Option String
  extra : List (String × String)
deriving DecidableEq, Repr

/-- The per-file loop of `process_single_dataset`, candidate side: the files
that pass the heuristic and do not require msconvert (with msconvert
processing disabled) become candidates, keeping listing order, with a zero
initial count. -/
def candidate_files_for_ms2 (files : List RemoteFileInfo)
    (derived : List Term) (assessment : String) : List SelectedFile :=
  files.filterMap (fun fi =>
    let r := check_filename_relevance (norm fi.filename) derived assessment
    if r.1 then
      if fi.file_ext_lower ∈ MSCONVERT_SUPPORTED_RAW_EXTENSIONS &&
          !ENABLE_MSCONVERT_PROCESSING then none
      else some ⟨fi.ftp_full_path, fi.filename, fi.file_ext_lower, r.2, 0⟩
    else none)

/-- The per-file loop of `process_single_dataset`, skip side: how many
relevant files were skipped because their extension requires msconvert while
msconvert processing is disabled. -/
def unsupported_skipped_count (files : List RemoteFileInfo)
    (derived : List Term) (assessment : String) : Nat :=
  (files.filter (fun fi =>
    (check_filename_relevance (norm fi.filename) derived assessment).1 &&
    (decide (fi.file_ext_lower ∈ MSCONVERT_SUPPORTED_RAW_EXTENSIONS) &&
      !ENABLE_MSCONVERT_PROCESSING))).length

/-- Does the heuristic match reason mention "control" or "raw"
(the sort key of the capping step, lowercased substring tests)? -/
def mentions_raw_or_control (reason : String) : Bool :=
  matchTerm (norm reason.data) (.sub "control".data) ||
  matchTerm (norm reason.data) (.sub "raw".data)

/-- The sort comparison of the capping step: `sorted` with
`key=lambda x: 0 if 'control' or 'raw' in reason else 1` orders by `≤` on
that 0/1 key. -/
def ms2SortLe (a b : SelectedFile) : Bool :=
  decide ((if mentions_raw_or_control a.heuristic_match_reason then 0 else 1) ≤
    (if mentions_raw_or_control b.heuristic_match_reason then (0:Nat) else 1))

/-- The capping step of `process_single_dataset`: when more candidates than
`MAX_FILES_FOR_MS2_COUNTING` were kept, sort them stably so that files whose
match reason mentions "control" or "raw" come first, and truncate to the
cap. -/
def limit_files_for_ms2_counting (candidates : List SelectedFile) :
    List SelectedFile :=
  if MAX_FILES_FOR_MS2_COUNTING < candidates.length then
    (sortedBy ms2SortLe candidates).take MAX_FILES_FOR_MS2_COUNTING
  else candidates

/-- The counting dispatch of `process_single_dataset` for one selected file:
text-based extensions are streamed and counted (oracle `countText`); binary
vendor extensions go through msconvert only when the global flag is set and
Docker is available, and count 0 otherwise; anything else counts 0. -/
def count_one_file (countText : List Char → List Char → List Char → Nat)
    (dockerAvailable : Bool) (msconvertCount : List Char → List Char → Nat)
    (server : List Char) (f : SelectedFile) : Nat :=
  if f.file_ext_lower ∈ TEXT_BASED_EXTENSIONS then
    countText server f.ftp_file_path f.file_ext_lower
  else if f.file_ext_lower ∈ MSCONVERT_SUPPORTED_RAW_EXTENSIONS then
    if ENABLE_MSCONVERT_PROCESSING && dockerAvailable then
      msconvertCount server f.ftp_file_path
    else 0
  else 0

/-- `process_single_dataset(dataset_info_item, food_item_key)`.  The three
external collaborators — the `lftp` listing, the streamed text count and the
msconvert conversion count — enter as oracles, together with the memoized
Docker availability probe. -/
def process_single_dataset
    (ftpFind : List Char → List Char → List (List Char))
    (countText : List Char → List Char → List Char → Nat)
    (dockerAvailable : Bool)
    (msconvertCount : List Char → List Char → Nat)
    (dataset_info_item : DatasetRecord) (food_item_key : List Char) :
    DatasetRecord :=
  let llm_assessment := dataset_info_item.llm_assessment.getD "REJECTED"
  let rec0 := { dataset_info_item with
    selected_files_for_ms2_analysis := []
    total_ms2_spectra_from_selected_files := 0
    unsupported_files_skipped_count := 0 }
  if llm_assessment = "REJECTED" then
    { rec0 with ms2_count_source_type := some "rejected_by_llm" }
  else
    let ftp_link := dataset_info_item.ftp_link.getD []
    if ftp_link = [] || !("ftp://".data.isPrefixOf ftp_link) then
      { rec0 with ms2_count_source_type := some "no_ftp_link" }
    else
      let derived := (get_derived_food_name_regex_list food_item_key).map
        compileFoodPattern
      let sp := parse_ftp_path ftp_link
      let all_ftp_files_info :=
        list_mass_spec_files_recursively ftpFind sp.1 sp.2
      if all_ftp_files_info = [] then
        { rec0 with ms2_count_source_type := some ("ftp_no_files_found_" ++ pyLower llm_assessment) }
      else
        let candidates := candidate_files_for_ms2 all_ftp_files_info derived
          llm_assessment
        let skipped := unsupported_skipped_count all_ftp_files_info derived
          llm_assessment
        let rec1 := { rec0 with unsupported_files_skipped_count := skipped }
        if candidates = [] then
          { rec1 with ms2_count_source_type := some ("no_processable_files_passed_heuristics_" ++ pyLower llm_assessment) }
        else
          let files_to_process := limit_files_for_ms2_counting candidates
          let processed := files_to_process.map (fun f =>
            { f with ms2_spectra_in_file := count_one_file countText dockerAvailable msconvertCount sp.1 f })
          { rec1 with
            selected_files_for_ms2_analysis := processed,
            total_ms2_spectra_from_selected_files := (processed.map (fun f => f.ms2_spectra_in_file)).sum,
            ms2_count_source_type := some ("ftp_analysis_" ++ pyLower llm_assessment ++ "_heuristic_filtered") }

/-! ### Concrete fixtures used by witnesses and counterexamples -/

/-- An `lftp find` oracle answering with no lines (a failed or empty listing). -/
def emptyFtpFind : List Char → List Char → List (List Char) := fun _ _ => []

/-- A streamed-count oracle counting 0 everywhere. -/
def zeroCountText : List Char → List Char → List Char → Nat := fun _ _ _ => 0

/-- A msconvert-count oracle counting 0 everywhere. -/
def zeroMsconvertCount : List Char → List Char → Nat := fun _ _ => 0

/-- An `lftp find` oracle listing one supported file. -/
def oneFileFtpFind : List Char → List Char → List (List Char) :=
  fun _ _ => ["/pub/study/sample_a.mzML".data]

/-- A rejected dataset record carrying a stale nonzero skipped count. -/
def recRejected : DatasetRecord :=
  ⟨some "ST0001", some "REJECTED", some "ftp://host/pub/study".data, [], 0, 5,
    none, [("species", "Zea mays")]⟩

/-- A MAYBE dataset record without any remote link. -/
def recNoLink : DatasetRecord :=
  ⟨some "ST0002", some "MAYBE", none, [], 0, 0, none, []⟩

/-- A dataset record lacking the assessment field entirely. -/
def recNoAssessment : DatasetRecord :=
  ⟨some "ST0003", none, some "ftp://host/pub/study".data, [], 0, 0, none, []⟩

/-- One processable candidate file with a given reason and index. -/
def mkCandidate (reason : String) (i : Nat) : SelectedFile :=
  ⟨("/pub/f" ++ toString i).data, ("f" ++ toString i).data, ".mzml".data, reason, 0⟩

/-- Eleven candidates: the first has a reason with no "raw"/"control" mention,
the other ten mention the raw/control signal. -/
def elevenCandidates : List SelectedFile :=
  mkCandidate "accepted_study_non_qc_file" 0 ::
    (List.range 10).map (fun i =>
      mkCandidate "maybe_no_food_match_but_strong_raw_control_signal" (i + 1))

end MsFilter

open MsFilter

/-! ## Helper lemmas -/

/-- Inserting `x` into `A ++ B` lands exactly between `A` and `B` when `x`
sorts strictly after everything in `A` and weakly before everything in `B`. -/
theorem insortBy_append {α : Type} (le : α → α → Bool) (x : α) :
    ∀ A B : List α, (∀ a ∈ A, le x a = false) → (∀ b ∈ B, le x b = true) →
      insortBy le x (A ++ B) = A ++ x :: B := by
  intro A
  induction A with
  | nil =>
    intro B _ hB
    cases B with
    | nil => rfl
    | cons b bs => simp [insortBy, hB b (by simp)]
  | cons a as ih =>
    intro B hA hB
    have ha : le x a = false := hA a (by simp)
    simp only [List.cons_append, insortBy, ha]
    simp [ih B (fun a' ha' => hA a' (by simp [ha'])) hB]

/-- Sorting by the 0/1 "mentions raw or control" key is the stable partition:
all key-0 files in their original order, then all key-1 files in theirs. -/
theorem sortedBy_ms2SortLe (l : List SelectedFile) :
    sortedBy ms2SortLe l
      = l.filter (fun f => mentions_raw_or_control f.heuristic_match_reason) ++
        l.filter (fun f => !mentions_raw_or_control f.heuristic_match_reason) := by
  induction l with
  | nil => rfl
  | cons x xs ih =>
    by_cases hx : mentions_raw_or_control x.heuristic_match_reason
    · have : insortBy ms2SortLe x
            (xs.filter (fun f => mentions_raw_or_control f.heuristic_match_reason) ++
             xs.filter (fun f => !mentions_raw_or_control f.heuristic_match_reason))
          = [] ++ x ::
            (xs.filter (fun f => mentions_raw_or_control f.heuristic_match_reason) ++
             xs.filter (fun f => !mentions_raw_or_control f.heuristic_match_reason)) := by
        have h0 := insortBy_append ms2SortLe x []
          (xs.filter (fun f => mentions_raw_or_control f.heuristic_match_reason) ++
           xs.filter (fun f => !mentions_raw_or_control f.heuristic_match_reason))
          (by simp)
          (by intro b _; simp [ms2SortLe, hx])
        simpa using h0
      simp [sortedBy, ih, this, hx]
    · have : insortBy ms2SortLe x
            (xs.filter (fun f => mentions_raw_or_control f.heuristic_match_reason) ++
             xs.filter (fun f => !mentions_raw_or_control f.heuristic_match_reason))
          = xs.filter (fun f => mentions_raw_or_control f.heuristic_match_reason) ++
            x :: xs.filter (fun f => !mentions_raw_or_control f.heuristic_match_reason) := by
        refine insortBy_append ms2SortLe x _ _ ?_ ?_
        · intro a ha
          have hpa : mentions_raw_or_control a.heuristic_match_reason = true :=
            (List.mem_filter.1 ha).2
          simp [ms2SortLe, hx, hpa]
        · intro b hb
          have hpb : mentions_raw_or_control b.heuristic_match_reason = false := by
            simpa using (List.mem_filter.1 hb).2
          simp [ms2SortLe, hx, hpb]
      simp [sortedBy, ih, this, hx]

/-- The capping step never returns more than the cap. -/
theorem limit_files_length_le (candidates : List SelectedFile) :
    (limit_files_for_ms2_counting candidates).length ≤ MAX_FILES_FOR_MS2_COUNTING := by
  unfold limit_files_for_ms2_counting
  split
  · simp [List.length_take]
  · next h => exact Nat.le_of_not_lt h

/-- The classifier's reason tag is always one of these nine strings; the
tenth string appearing in its source, the treatment-without-raw/control
reason of the inner MAYBE branch, never escapes. -/
theorem check_reason_mem (fn : List Char) (pats : List Term) (a : String) :
    (check_filename_relevance fn pats a).2 ∈
      ["qc_or_blank_file", "accepted_study_non_qc_file",
       "maybe_processed_product_no_raw_control_signal",
       "maybe_non_edible_part_no_edible_control_signal",
       "maybe_food_match_with_raw_control_or_edible_term",
       "maybe_no_food_match_but_strong_raw_control_signal",
       "maybe_treatment_file_lacks_any_positive_signal",
       "maybe_lacks_sufficient_positive_signal",
       "unknown_assessment_type_or_unmatched_condition_in_heuristic"] := by
  simp only [check_filename_relevance]
  split_ifs <;> simp_all

/-- C2: a filename matching any QC/blank/standard term is rejected with the
QC reason tag, for every assessment value and every food-key pattern set;
the QC rule fires before every other rule. -/
theorem c2_qc_rejection_overrides (fn : List Char) (pats : List Term)
    (assessment : String)
    (h : matchesAny COMPILED_QC (norm fn) = true) :
    check_filename_relevance fn pats assessment = (false, "qc_or_blank_file") := by
  simp [check_filename_relevance, h]

/-- Witness for C2 at a concrete input: "blank_run_07.mzML" matches the QC
term "blank" and is rejected as QC under the MAYBE assessment. -/
theorem c2_witness :
    check_filename_relevance "blank_run_07.mzML".data [] "MAYBE"
      = (false, "qc_or_blank_file") :=
  c2_qc_rejection_overrides "blank_run_07.mzML".data [] "MAYBE" (by decide)

/-- C3: the inner reject branch of the MAYBE rule for treatment files without
raw/control is unreachable — its reason tag is never returned, for any
filename, food patterns and assessment. -/
theorem c3_dead_branch_unreachable (fn : List Char) (pats : List Term)
    (assessment : String) :
    (check_filename_relevance fn pats assessment).2 ≠
      "maybe_treatment_file_no_food_match_lacks_explicit_control_raw" := by
  intro hEq
  have hMem := check_reason_mem fn pats assessment
  rw [hEq] at hMem
  exact absurd hMem (by decide)

/-- C1 counterexample.  Under MAYBE: "beer_blank" matches a PROCESSED term
and neither CONTROL nor RAW, yet its rejection reason is the QC tag, not the
processed-product tag.  And adding the RAW term "raw" to the rejected
"beer" or "beer_leaf" does not flip the classifier to keep: "beer_raw"
stays rejected (the underscore denies `\braw\b` its word boundary), and
"raw beer_leaf" — where the raw term genuinely matches — is rejected by the
non-edible rule. -/
theorem c1_counterexample :
    (matchesAny COMPILED_PROCESSED (norm "beer_blank".data) = true ∧
     matchesAny COMPILED_CONTROL (norm "beer_blank".data) = false ∧
     matchesAny COMPILED_RAW (norm "beer_blank".data) = false ∧
     check_filename_relevance "beer_blank".data [] "MAYBE"
       = (false, "qc_or_blank_file")) ∧
    (check_filename_relevance "beer".data [] "MAYBE"
       = (false, "maybe_processed_product_no_raw_control_signal") ∧
     check_filename_relevance "beer_raw".data [] "MAYBE"
       = (false, "maybe_processed_product_no_raw_control_signal")) ∧
    (check_filename_relevance "beer_leaf".data [] "MAYBE"
       = (false, "maybe_processed_product_no_raw_control_signal") ∧
     matchesAny COMPILED_RAW (norm "raw beer_leaf".data) = true ∧
     (check_filename_relevance "raw beer_leaf".data [] "MAYBE").1 = false) := by
  refine ⟨⟨?_, ?_, ?_, ?_⟩, ⟨?_, ?_⟩, ⟨?_, ?_, ?_⟩⟩ <;> decide

/-- C1 as amended: under MAYBE, for filenames free of QC terms, a PROCESSED
match without CONTROL or RAW is rejected with the processed-product reason;
a filename whose CONTROL match holds is kept; and a filename whose RAW match
holds is kept provided any NON_EDIBLE match is accompanied by a
GENERIC_EDIBLE_PART or CONTROL match. -/
theorem c1_amended_processed_monotonicity (fn : List Char) (pats : List Term)
    (hqc : matchesAny COMPILED_QC (norm fn) = false) :
    (matchesAny COMPILED_PROCESSED (norm fn) = true →
     matchesAny COMPILED_CONTROL (norm fn) = false →
     matchesAny COMPILED_RAW (norm fn) = false →
     check_filename_relevance fn pats "MAYBE"
       = (false, "maybe_processed_product_no_raw_control_signal")) ∧
    (matchesAny COMPILED_CONTROL (norm fn) = true →
     (check_filename_relevance fn pats "MAYBE").1 = true) ∧
    (matchesAny COMPILED_RAW (norm fn) = true →
     (matchesAny COMPILED_NON_EDIBLE (norm fn) = true →
       matchesAny COMPILED_GENERIC_EDIBLE_PART (norm fn) = true ∨
       matchesAny COMPILED_CONTROL (norm fn) = true) →
     (check_filename_relevance fn pats "MAYBE").1 = true) := by
  refine ⟨?_, ?_, ?_⟩
  · intro hp hc hr
    simp [check_filename_relevance, hqc, hp, hc, hr]
  · intro hc
    cases hfm : matchesAny pats (norm fn) <;>
    cases hr : matchesAny COMPILED_RAW (norm fn) <;>
    cases hge : matchesAny COMPILED_GENERIC_EDIBLE_PART (norm fn) <;>
    cases ht : matchesAny COMPILED_TREATMENT (norm fn) <;>
    simp [check_filename_relevance, hqc, hc, hfm, hr, hge, ht]
  · intro hr hne
    cases hfm : matchesAny pats (norm fn) <;>
    cases hc : matchesAny COMPILED_CONTROL (norm fn) <;>
    cases hge : matchesAny COMPILED_GENERIC_EDIBLE_PART (norm fn) <;>
    cases ht : matchesAny COMPILED_TREATMENT (norm fn) <;>
    cases hn : matchesAny COMPILED_NON_EDIBLE (norm fn) <;>
    simp_all [check_filename_relevance]

/-- Witness for the amended C1 at concrete inputs: "ctrl_beer" (PROCESSED
plus CONTROL, no QC) is kept. -/
theorem c1_witness :
    (check_filename_relevance "ctrl_beer".data [] "MAYBE").1 = true :=
  (c1_amended_processed_monotonicity "ctrl_beer".data [] (by decide)).2.1
    (by decide)

/-- C4: when the kept candidates exceed the cap, the selection is the stable
raw/control-first order truncated to the cap — all files whose reason
mentions "raw" or "control", in listing order, followed by the rest in
listing order, cut at the cap; in particular, when exactly cap files carry
raw/control reasons, the selection is exactly those files. -/
theorem c4_cap_sort_selection (candidates : List SelectedFile)
    (h : MAX_FILES_FOR_MS2_COUNTING < candidates.length) :
    limit_files_for_ms2_counting candidates
      = ((candidates.filter
            (fun f => mentions_raw_or_control f.heuristic_match_reason)) ++
         candidates.filter
            (fun f => !mentions_raw_or_control f.heuristic_match_reason)).take
          MAX_FILES_FOR_MS2_COUNTING ∧
    ((candidates.filter
        (fun f => mentions_raw_or_control f.heuristic_match_reason)).length
        = MAX_FILES_FOR_MS2_COUNTING →
      limit_files_for_ms2_counting candidates
        = candidates.filter
            (fun f => mentions_raw_or_control f.heuristic_match_reason)) := by
  have hmain : limit_files_for_ms2_counting candidates
      = ((candidates.filter
            (fun f => mentions_raw_or_control f.heuristic_match_reason)) ++
         candidates.filter
            (fun f => !mentions_raw_or_control f.heuristic_match_reason)).take
          MAX_FILES_FOR_MS2_COUNTING := by
    rw [limit_files_for_ms2_counting, if_pos h, sortedBy_ms2SortLe]
  refine ⟨hmain, fun hlen => ?_⟩
  rw [hmain, ← hlen, List.take_left]

/-- Witness for C4: of eleven candidates where the ten raw/control-reason
files follow a single accepted-reason file, the selection is exactly the ten
raw/control files. -/
theorem c4_witness :
    limit_files_for_ms2_counting elevenCandidates
      = elevenCandidates.filter
          (fun f => mentions_raw_or_control f.heuristic_match_reason) :=
  (c4_cap_sort_selection elevenCandidates (by decide)).2 (by decide)

/-- C5: the orchestrator never selects more than the cap of 10 files per
dataset, whatever the dataset record, food key and external collaborators do. -/
theorem c5_selected_files_le_cap
    (ftpFind : List Char → List Char → List (List Char))
    (countText : List Char → List Char → List Char → Nat)
    (dockerAvailable : Bool) (msconvertCount : List Char → List Char → Nat)
    (rec : DatasetRecord) (key : List Char) :
    (process_single_dataset ftpFind countText dockerAvailable msconvertCount
        rec key).selected_files_for_ms2_analysis.length ≤ 10 := by
  unfold process_single_dataset
  dsimp only
  split
  · simp
  · split
    · simp
    · split
      · simp
      · split
        · simp
        · simpa [List.length_map] using
            limit_files_length_le (candidate_files_for_ms2 _ _ _)

/-- C6 counterexample: the orchestrator does not leave every non-listed field
of a REJECTED record unchanged — a stale unsupported-files-skipped count of 5
is reset to 0 on the rejected path. -/
theorem c6_counterexample :
    (process_single_dataset emptyFtpFind zeroCountText false zeroMsconvertCount
        recRejected "maize".data).unsupported_files_skipped_count = 0 ∧
    recRejected.unsupported_files_skipped_count = 5 := by
  refine ⟨?_, ?_⟩ <;> decide

/-- C6 as amended: for a REJECTED record the orchestrator performs no listing
or counting (the result is a record built without consulting any oracle),
sets the selected-file list empty, the aggregate count to 0, the source-type
to the rejection tag, resets the unsupported-skipped count to 0, and leaves
every remaining field unchanged. -/
theorem c6_rejected_short_circuit
    (ftpFind : List Char → List Char → List (List Char))
    (countText : List Char → List Char → List Char → Nat)
    (dockerAvailable : Bool) (msconvertCount : List Char → List Char → Nat)
    (rec : DatasetRecord) (key : List Char)
    (h : rec.llm_assessment = some "REJECTED") :
    process_single_dataset ftpFind countText dockerAvailable msconvertCount
        rec key
      = { rec with
          selected_files_for_ms2_analysis := []
          total_ms2_spectra_from_selected_files := 0
          unsupported_files_skipped_count := 0
          ms2_count_source_type := some "rejected_by_llm" } := by
  unfold process_single_dataset
  rw [h]
  rfl

/-- Witness for the amended C6: the rejected record is short-circuited to the
rejection result. -/
theorem c6_witness :
    process_single_dataset emptyFtpFind zeroCountText false zeroMsconvertCount
        recRejected "maize".data
      = { recRejected with
          selected_files_for_ms2_analysis := []
          total_ms2_spectra_from_selected_files := 0
          unsupported_files_skipped_count := 0
          ms2_count_source_type := some "rejected_by_llm" } :=
  c6_rejected_short_circuit emptyFtpFind zeroCountText false zeroMsconvertCount
    recRejected "maize".data (by decide)

/-- C8: for a record whose assessment is present and not REJECTED but whose
remote link is absent or lacks the ftp scheme, the orchestrator consults no
oracle and returns the record with empty selection, zero aggregate count and
the `no_ftp_link` source-type. -/
theorem c8_no_ftp_link_short_circuit
    (ftpFind : List Char → List Char → List (List Char))
    (countText : List Char → List Char → List Char → Nat)
    (dockerAvailable : Bool) (msconvertCount : List Char → List Char → Nat)
    (rec : DatasetRecord) (key : List Char) (a : String)
    (ha : rec.llm_assessment = some a) (hna : a ≠ "REJECTED")
    (hlink : "ftp://".data.isPrefixOf (rec.ftp_link.getD []) = false) :
    process_single_dataset ftpFind countText dockerAvailable msconvertCount
        rec key
      = { rec with
          selected_files_for_ms2_analysis := []
          total_ms2_spectra_from_selected_files := 0
          unsupported_files_skipped_count := 0
          ms2_count_source_type := some "no_ftp_link" } := by
  unfold process_single_dataset
  rw [ha]
  simp only [Option.getD_some]
  rw [if_neg hna, if_pos]
  simp [hlink]

/-- Witness for C8: the MAYBE record with no link short-circuits to the
`no_ftp_link` result. -/
theorem c8_witness :
    process_single_dataset emptyFtpFind zeroCountText false zeroMsconvertCount
        recNoLink "maize".data
      = { recNoLink with
          selected_files_for_ms2_analysis := []
          total_ms2_spectra_from_selected_files := 0
          unsupported_files_skipped_count := 0
          ms2_count_source_type := some "no_ftp_link" } :=
  c8_no_ftp_link_short_circuit emptyFtpFind zeroCountText false
    zeroMsconvertCount recNoLink "maize".data "MAYBE" (by decide) (by decide)
    (by decide)

/-- C10: a record lacking the assessment field is treated exactly as a
REJECTED one: no oracle is consulted and the result carries the rejection
tag, an empty selection and a zero aggregate count. -/
theorem c10_missing_assessment_rejected
    (ftpFind : List Char → List Char → List (List Char))
    (countText : List Char → List Char → List Char → Nat)
    (dockerAvailable : Bool) (msconvertCount : List Char → List Char → Nat)
    (rec : DatasetRecord) (key : List Char)
    (h : rec.llm_assessment = none) :
    process_single_dataset ftpFind countText dockerAvailable msconvertCount
        rec key
      = { rec with
          selected_files_for_ms2_analysis := []
          total_ms2_spectra_from_selected_files := 0
          unsupported_files_skipped_count := 0
          ms2_count_source_type := some "rejected_by_llm" } := by
  unfold process_single_dataset
  rw [h]
  rfl

/-- Witness for C10: the record without an assessment field short-circuits to
the rejection result. -/
theorem c10_witness :
    process_single_dataset emptyFtpFind zeroCountText false zeroMsconvertCount
        recNoAssessment "maize".data
      = { recNoAssessment with
          selected_files_for_ms2_analysis := []
          total_ms2_spectra_from_selected_files := 0
          unsupported_files_skipped_count := 0
          ms2_count_source_type := some "rejected_by_llm" } :=
  c10_missing_assessment_rejected emptyFtpFind zeroCountText false
    zeroMsconvertCount recNoAssessment "maize".data (by decide)

/-- Insertion keeps the same multiset of elements. -/
theorem insortBy_perm {α : Type} (le : α → α → Bool) (x : α) (l : List α) :
    (insortBy le x l).Perm (x :: l) := by
  induction l with
  | nil => exact List.Perm.refl _
  | cons y ys ih =>
    simp only [insortBy]
    split
    · exact List.Perm.refl _
    · exact (ih.cons y).trans (List.Perm.swap x y ys)

/-- The stable insertion sort permutes its input. -/
theorem sortedBy_perm {α : Type} (le : α → α → Bool) (l : List α) :
    (sortedBy le l).Perm l := by
  induction l with
  | nil => exact List.Perm.refl _
  | cons x xs ih => exact (insortBy_perm le x (sortedBy le xs)).trans (ih.cons x)

/-- Every pattern the generator emits is either the whole-key pattern or the
pattern of an underscore token longer than two characters. -/
theorem mem_get_derived_food_name_regex_list (k p : List Char)
    (hp : p ∈ get_derived_food_name_regex_list k) :
    p = mkFoodPattern (escapeRe k) ∨
    ∃ tok ∈ splitOnChar '_' k, 2 < tok.length ∧
      p = mkFoodPattern (escapeRe tok) := by
  unfold get_derived_food_name_regex_list at hp
  split at hp
  · simp at hp
  · dsimp only at hp
    have hp2 := List.mem_dedup.1 (((sortedBy_perm lexLe _).mem_iff).1 hp)
    split at hp2 <;>
      [skip;
       rcases List.mem_append.1 hp2 with hp2 | hp2] <;>
    first
      | (exact Or.inl (by simpa using hp2))
      | (obtain ⟨esc, hesc, rfl⟩ := List.mem_map.1 hp2
         obtain ⟨tok, htok, rfl⟩ := List.mem_map.1 hesc
         exact Or.inr ⟨tok, (List.mem_filter.1 htok).1,
           by simpa using (List.mem_filter.1 htok).2, rfl⟩)

/-- C7: the food-key generator is a deterministic function; the empty key
yields no patterns; the output has no duplicates; and every emitted pattern
is the whole-key pattern or comes from an underscore token longer than two
characters (so tokens of length at most 2 contribute no per-token pattern). -/
theorem c7_food_key_generator_props :
    get_derived_food_name_regex_list [] = [] ∧
    (∀ k : List Char,
      get_derived_food_name_regex_list k = get_derived_food_name_regex_list k) ∧
    (∀ k : List Char, (get_derived_food_name_regex_list k).Nodup) ∧
    (∀ k p : List Char, p ∈ get_derived_food_name_regex_list k →
      p = mkFoodPattern (escapeRe k) ∨
      ∃ tok ∈ splitOnChar '_' k, 2 < tok.length ∧
        p = mkFoodPattern (escapeRe tok)) := by
  refine ⟨rfl, fun _ => rfl, fun k => ?_, mem_get_derived_food_name_regex_list⟩
  unfold get_derived_food_name_regex_list
  split
  · exact List.nodup_nil
  · exact ((sortedBy_perm lexLe _).nodup_iff).2 (List.nodup_dedup _)

/-- Witness for C7 at a concrete key: the pattern for "grain" emitted for the
key "corn_grain" comes from the token "grain" of length 5. -/
theorem c7_witness :
    "\\bgrain\\b".data = mkFoodPattern (escapeRe "corn_grain".data) ∨
    ∃ tok ∈ splitOnChar '_' "corn_grain".data, 2 < tok.length ∧
      "\\bgrain\\b".data = mkFoodPattern (escapeRe tok) :=
  c7_food_key_generator_props.2.2.2 "corn_grain".data "\\bgrain\\b".data
    (by decide)

/-- Every file the lister returns carries a supported lowercase extension. -/
theorem lister_ext_supported
    (ftpFind : List Char → List Char → List (List Char))
    (server base : List Char) (f : RemoteFileInfo)
    (hf : f ∈ list_mass_spec_files_recursively ftpFind server base) :
    f.file_ext_lower ∈ SUPPORTED_EXTENSIONS_LOWER := by
  unfold list_mass_spec_files_recursively at hf
  obtain ⟨line, _, h⟩ := List.mem_filterMap.1 hf
  dsimp only at h
  split at h
  · exact absurd h (by simp)
  · split at h
    · next hext =>
      obtain rfl := Option.some.inj h
      exact hext
    · exact absurd h (by simp)

/-- A supported extension is never one requiring msconvert. -/
theorem supported_not_msconvert (e : List Char)
    (he : e ∈ SUPPORTED_EXTENSIONS_LOWER) :
    ¬ e ∈ MSCONVERT_SUPPORTED_RAW_EXTENSIONS := by
  fin_cases he <;> decide

/-- With every listed file supported and msconvert disabled, the skip bucket
of the per-file loop stays empty. -/
theorem unsupported_skipped_count_lister_zero
    (ftpFind : List Char → List Char → List (List Char))
    (server base : List Char) (derived : List Term) (assessment : String) :
    unsupported_skipped_count
        (list_mass_spec_files_recursively ftpFind server base)
        derived assessment = 0 := by
  unfold unsupported_skipped_count
  rw [List.length_eq_zero, List.filter_eq_nil_iff]
  intro fi hfi
  have hns := supported_not_msconvert _ (lister_ext_supported _ _ _ _ hfi)
  simp [decide_eq_false hns]

/-- C9: the lister only produces descriptors with supported lowercase
extensions, disjoint from the msconvert set — so in the orchestrator the
msconvert-skip branch is unreachable and the unsupported-skipped count is 0
for every processed dataset. -/
theorem c9_lister_extensions_supported :
    (∀ (ftpFind : List Char → List Char → List (List Char))
       (server base : List Char) (f : RemoteFileInfo),
       f ∈ list_mass_spec_files_recursively ftpFind server base →
       f.file_ext_lower ∈ SUPPORTED_EXTENSIONS_LOWER ∧
       ¬ f.file_ext_lower ∈ MSCONVERT_SUPPORTED_RAW_EXTENSIONS) ∧
    (∀ (ftpFind : List Char → List Char → List (List Char))
       (countText : List Char → List Char → List Char → Nat)
       (dockerAvailable : Bool) (msconvertCount : List Char → List Char → Nat)
       (rec : DatasetRecord) (key : List Char),
       (process_single_dataset ftpFind countText dockerAvailable msconvertCount
           rec key).unsupported_files_skipped_count = 0) := by
  constructor
  · intro ftpFind server base f hf
    have hs := lister_ext_supported ftpFind server base f hf
    exact ⟨hs, supported_not_msconvert _ hs⟩
  · intro ftpFind countText dockerAvailable msconvertCount rec key
    unfold process_single_dataset
    dsimp only
    split
    · simp
    · split
      · simp
      · split
        · simp
        · split
          · simp [unsupported_skipped_count_lister_zero]
          · simp [unsupported_skipped_count_lister_zero]

/-- Witness for C9 at a concrete listing: the single listed file has the
supported extension ".mzml", which is not an msconvert extension. -/
theorem c9_witness :
    (⟨"/pub/study/sample_a.mzML".data, "sample_a.mzML".data,
        ".mzml".data⟩ : RemoteFileInfo).file_ext_lower
      ∈ SUPPORTED_EXTENSIONS_LOWER ∧
    ¬ (⟨"/pub/study/sample_a.mzML".data, "sample_a.mzML".data,
        ".mzml".data⟩ : RemoteFileInfo).file_ext_lower
      ∈ MSCONVERT_SUPPORTED_RAW_EXTENSIONS :=
  c9_lister_extensions_supported.1 oneFileFtpFind "host".data "/pub/study".data
    ⟨"/pub/study/sample_a.mzML".data, "sample_a.mzML".data, ".mzml".data⟩
    (by decide)
